import Mathlib

/-!
Shallow embedding of the sqlago driver core (package sqlany): the tagged
value codec (stmt.bindParam), the statement lifecycle (stmt.execute,
stmt.Query, stmt.Exec, stmt.Close), the connection teardown (conn.Close)
and the row cursor (rows.Next), as written in the repository source.

The native SQL Anywhere C-API wrapper (sqlaConn / sqlaStmt methods,
the sqlaError type and the dataValue type) lives in a repository file
that only exposes opaque primitives; it is modelled here as an oracle
structure SqlaOracle prescribing the result of each native call, per the
spec interface list (connect, prepare, describeBindParam, bindParam,
execute, reset, fetchNext, getColumn, newError, ...).  Every function
below records the trace of native calls it performs.
-/

namespace Sqlago

/-- Modelled from the spec: the ClassifiedError produced by the missing
native wrapper file's newError (`sqlaError` in the source): a numeric
code and a message.  Code 100 is the end-of-result-set sentinel. -/
structure SqlaError where
  code : Int
  message : String
deriving DecidableEq, Repr

/-- Modelled from the spec: native value-type tags of the C API
(A_* constants defined in the missing native wrapper file). -/
inductive NativeType where
  | A_BINARY
  | A_STRING
  | A_DOUBLE
  | A_VAL64
  | A_VAL32
  | A_VAL16
  | A_VAL8
  | A_UVAL8
deriving DecidableEq, Repr

/-- Errors the driver layer can return to database/sql (Go `error`
values): ErrNotSupported, the argument-count mismatch error built with
fmt.Errorf in stmt.execute, a classified native error, and io.EOF. -/
inductive GoError where
  | notSupported
  | argCount (got expected : Nat)
  | sqlaErr (e : SqlaError)
  | eofErr
deriving DecidableEq, Repr

/-- A dynamically-typed Go value passed as a driver.Value argument,
organized by the reflect.Kind switch of stmt.bindParam.  Strings and
byte slices carry their raw bytes; Go ints are 64-bit. -/
inductive GoValue where
  | null
  | boolV (b : Bool)
  | int8V (i : Int)
  | int16V (i : Int)
  | int32V (i : Int)
  | intV (i : Int)
  | int64V (i : Int)
  | float32V (x : Rat)
  | float64V (x : Rat)
  | strV (bytes : List Nat)
  | binaryV (bytes : List Nat)
  | complex64V
  | complex128V
  | nonByteSliceV
  | otherV (typename : String) (tsize : Nat)
deriving DecidableEq, Repr

/-- What the buffer pointer of a bound parameter references after the
encode switch: nothing (left at its zero value), a byte array, a signed
integer of a given bit width, or a 64-bit float. -/
inductive BufferContent where
  | uninit
  | byteArr (bs : List Nat)
  | intBytes (width : Nat) (i : Int)
  | floatBytes (x : Rat)
deriving DecidableEq, Repr

/-- The a_sqlany_data_value inside the bindParam struct filled by
stmt.bindParam: type tag (none = zero value, never assigned), buffer,
buffer size, the size referenced by the length pointer, and the isnull
flag.  Sizes are in bytes. -/
structure SAValue where
  datatype : Option NativeType
  buffer : BufferContent
  buffersize : Nat
  length : Nat
  isnull : Bool
deriving DecidableEq, Repr

/-- Outcome of the encode portion of stmt.bindParam: a Go runtime panic,
the ErrNotSupported return of the default case, or fall-through to the
native bindParam call with the filled value. -/
inductive EncodeStep where
  | panicStep (reason : String)
  | unsupported
  | proceed (v : SAValue)
deriving DecidableEq, Repr

/-- Two's-complement truncation to 8 bits, as Go's int8(i). -/
def trunc8 (i : Int) : Int := (i + 2 ^ 7) % 2 ^ 8 - 2 ^ 7

/-- Two's-complement truncation to 16 bits, as Go's int16(i). -/
def trunc16 (i : Int) : Int := (i + 2 ^ 15) % 2 ^ 16 - 2 ^ 15

/-- Two's-complement truncation to 32 bits, as Go's int32(i). -/
def trunc32 (i : Int) : Int := (i + 2 ^ 31) % 2 ^ 32 - 2 ^ 31

/-- The value-encoding switch of stmt.bindParam (source part_000 lines
252-311).  Before the switch the source computes
`datasize := reflect.TypeOf(param).Size()` and initializes
buffersize/length to it — for a nil param, reflect.TypeOf returns the
nil Type and calling Size() on it nil-dereferences (the source's own
FIXME admits nil is unhandled).  Per case:
* bool: one byte 1/0, tag A_UVAL8, sizes stay at sizeof(bool) = 1;
* intNN: pointer to the (truncated) integer, tag A_VALNN, sizes stay at
  the source Go type's size (so Go int, 8 bytes, is tagged A_VAL32 with
  sizes 8, and the int32 truncation mirrors int32(v.Int()));
* float32/float64: v.Float() widens to a double, tag A_DOUBLE, sizes
  stay at the source type's size (4 for float32, 8 for float64);
* complex64/complex128: empty case body — nothing assigned, falls
  through to the native bind with the zero-value tag and nil buffer;
* string: syscall.StringBytePtr gives a NUL-terminated copy (it panics
  if the string itself contains a NUL byte), buffersize = len+1,
  length = len, tag A_STRING;
* []byte: buffer = &b[0] (which is an index-out-of-range panic when the
  slice is empty), buffersize = length = len, tag A_BINARY;
* non-byte slices: the type assertion fails and the case falls through
  to the native bind with nothing assigned (the source's FIXME);
* default: logs and returns ErrNotSupported. -/
def encodeValue : GoValue → EncodeStep
  | .null => .panicStep "runtime error: invalid memory address or nil pointer dereference"
  | .boolV b => .proceed ⟨some .A_UVAL8, .byteArr [if b then 1 else 0], 1, 1, false⟩
  | .int8V i => .proceed ⟨some .A_VAL8, .intBytes 8 (trunc8 i), 1, 1, false⟩
  | .int16V i => .proceed ⟨some .A_VAL16, .intBytes 16 (trunc16 i), 2, 2, false⟩
  | .int32V i => .proceed ⟨some .A_VAL32, .intBytes 32 (trunc32 i), 4, 4, false⟩
  | .intV i => .proceed ⟨some .A_VAL32, .intBytes 32 (trunc32 i), 8, 8, false⟩
  | .int64V i => .proceed ⟨some .A_VAL64, .intBytes 64 i, 8, 8, false⟩
  | .float32V x => .proceed ⟨some .A_DOUBLE, .floatBytes x, 4, 4, false⟩
  | .float64V x => .proceed ⟨some .A_DOUBLE, .floatBytes x, 8, 8, false⟩
  | .complex64V => .proceed ⟨none, .uninit, 8, 8, false⟩
  | .complex128V => .proceed ⟨none, .uninit, 16, 16, false⟩
  | .strV bs =>
      if 0 ∈ bs then .panicStep "syscall: string with NUL passed to StringByteSlice"
      else .proceed ⟨some .A_STRING, .byteArr (bs ++ [0]), bs.length + 1, bs.length, false⟩
  | .binaryV bs =>
      match bs with
      | [] => .panicStep "runtime error: index out of range"
      | _ :: _ => .proceed ⟨some .A_BINARY, .byteArr bs, bs.length, bs.length, false⟩
  | .nonByteSliceV => .proceed ⟨none, .uninit, 24, 24, false⟩
  | .otherV _ _ => .unsupported

/-- One native C-API call performed by the driver, as recorded in the
call trace (newError, a pure error-retrieval accessor, is not traced). -/
inductive NativeCall where
  | reset
  | describeBindParam (idx : Nat)
  | bindParamCall (idx : Nat)
  | executeCall
  | fetchNext
  | getColumn (idx : Nat)
  | affectedRowsCall
  | freeStmt
  | disconnect
  | freeConn
deriving DecidableEq, Repr

/-- Modelled from the spec: the opaque native client library (the
sqlaConn/sqlaStmt wrapper file is not part of the marshaling core).
Each field prescribes the result of the corresponding native primitive:
numCols/numParams are the statement's cached introspection results,
describeOk/bindOk/executeOk/fetchNextOk/getColumnOk the boolean success
of each call, colVal the decoded column value handed back by getColumn,
nativeErr what newError retrieves (none = a nil error), affectedRows
the native row count, disconnectOk the disconnect result. -/
structure SqlaOracle where
  numCols : Nat
  numParams : Nat
  describeOk : Nat → Bool
  bindOk : Nat → Bool
  executeOk : Bool
  fetchNextOk : Bool
  getColumnOk : Nat → Bool
  colVal : Nat → GoValue
  nativeErr : Option SqlaError
  affectedRows : Nat
  disconnectOk : Bool

/-- True for a describeBindParam trace entry. -/
def isDescribeCall : NativeCall → Bool
  | .describeBindParam _ => true
  | _ => false

/-- True for a native bindParam trace entry. -/
def isBindCall : NativeCall → Bool
  | .bindParamCall _ => true
  | _ => false

/-- True for a native execute trace entry. -/
def isExecCall : NativeCall → Bool
  | .executeCall => true
  | _ => false

/-- Outcome of one stmt.bindParam call: nil error, a Go error, or a
runtime panic propagating out of the encode switch. -/
inductive BindOutcome where
  | okB
  | errB (e : GoError)
  | panicB (m : String)
deriving DecidableEq, Repr

/-- The Go error produced by `err = cn.newError(); return` after a
failed native call: the classified error, or nil when newError itself
yields no error. -/
def newErrorResult : Option SqlaError → Option GoError :=
  fun x => x.map (fun e => GoError.sqlaErr e)

/-- stmt.bindParam (source part_000 lines 245-318): describeBindParam
first (its failure returns the classified error before any reflection
on the value), then the encode switch, then the native bindParam with
the filled descriptor; a failed native bind returns the classified
error. -/
def stmtBindParam (o : SqlaOracle) (idx : Nat) (param : GoValue) :
    BindOutcome × List NativeCall :=
  if o.describeOk idx then
    match encodeValue param with
    | .panicStep m => (.panicB m, [.describeBindParam idx])
    | .unsupported => (.errB .notSupported, [.describeBindParam idx])
    | .proceed _ =>
        if o.bindOk idx then (.okB, [.describeBindParam idx, .bindParamCall idx])
        else
          match newErrorResult o.nativeErr with
          | some e => (.errB e, [.describeBindParam idx, .bindParamCall idx])
          | none => (.okB, [.describeBindParam idx, .bindParamCall idx])
  else
    match newErrorResult o.nativeErr with
    | some e => (.errB e, [.describeBindParam idx])
    | none => (.okB, [.describeBindParam idx])

/-- The bind loop of stmt.execute: `for i := 0; i < numparams; i++ {
st.bindParam(uint(i), args[i]) }`.  The returned error of each
bindParam call is discarded by the source, so only a runtime panic
stops the loop; the accumulated native-call trace is kept. -/
def bindAll (o : SqlaOracle) : Nat → List GoValue → Option String × List NativeCall
  | _, [] => (none, [])
  | i, a :: rest =>
    match stmtBindParam o i a with
    | (.panicB m, tr) => (some m, tr)
    | (_, tr) =>
        let r := bindAll o (i + 1) rest
        (r.1, tr ++ r.2)

/-- Outcome of stmt.execute: nil error, a Go error, or a propagated
runtime panic. -/
inductive ExecOutcome where
  | okE
  | errE (e : GoError)
  | panicked (m : String)
deriving DecidableEq, Repr

/-- The outcome of `if ok := st.st.execute(); !ok { err = newError() }`:
success, or on native failure whatever newError retrieves (a nil
newError result makes execute return a nil error). -/
def execTail (o : SqlaOracle) : ExecOutcome :=
  if o.executeOk then .okE
  else
    match newErrorResult o.nativeErr with
    | some e => .errE e
    | none => .okE

/-- stmt.execute (source part_000 lines 224-243): reset the pending
result set first when the statement produces columns, then — only when
an argument list is present — check its length against numparams
(mismatch returns the fmt.Errorf argument-count error), run the bind
loop (bind errors discarded, panics propagate), and finally call the
native execute. -/
def stmtExecute (o : SqlaOracle) (args : Option (List GoValue)) :
    ExecOutcome × List NativeCall :=
  let pre : List NativeCall := if 0 < o.numCols then [.reset] else []
  match args with
  | none => (execTail o, pre ++ [.executeCall])
  | some as =>
    if as.length = o.numParams then
      match bindAll o 0 as with
      | (some m, tr) => (.panicked m, pre ++ tr)
      | (none, tr) => (execTail o, pre ++ tr ++ [.executeCall])
    else (.errE (.argCount as.length o.numParams), pre)

/-- Outcome of stmt.Query: a rows cursor, an error, or a panic. -/
inductive QueryOutcome where
  | rowsQ
  | errQ (e : GoError)
  | panicQ (m : String)
deriving DecidableEq, Repr

/-- stmt.Query (source part_000 lines 320-325): execute, and wrap the
statement into a rows cursor on success. -/
def stmtQuery (o : SqlaOracle) (args : Option (List GoValue)) :
    QueryOutcome × List NativeCall :=
  match stmtExecute o args with
  | (.okE, tr) => (.rowsQ, tr)
  | (.errE e, tr) => (.errQ e, tr)
  | (.panicked m, tr) => (.panicQ m, tr)

/-- Outcome of stmt.Exec: a result carrying affectedRows, an error, or
a panic. -/
inductive ExecResultOutcome where
  | resultR (numaffected : Nat)
  | errR2 (e : GoError)
  | panicR (m : String)
deriving DecidableEq, Repr

/-- stmt.Exec (source part_000 lines 327-334): execute, then query the
native affectedRows on success. -/
def stmtExec (o : SqlaOracle) (args : Option (List GoValue)) :
    ExecResultOutcome × List NativeCall :=
  match stmtExecute o args with
  | (.okE, tr) => (.resultR o.affectedRows, tr ++ [.affectedRowsCall])
  | (.errE e, tr) => (.errR2 e, tr)
  | (.panicked m, tr) => (.panicR m, tr)

/-- Result of one stmt.Close call: the returned Go error, the closed
flag afterwards, the native calls performed, and the log lines. -/
structure StmtCloseResult where
  errOut : Option GoError
  closedAfter : Bool
  calls : List NativeCall
  logs : List String
deriving DecidableEq, Repr

/-- stmt.Close (source part_000 lines 208-222): on an already-closed
statement log and return nil without touching the native handle;
otherwise reset the pending result set when the statement produces
columns, free the native statement, and mark it closed. -/
def stmtClose (o : SqlaOracle) (closed : Bool) : StmtCloseResult :=
  if closed then
    ⟨none, true, [], ["stmt.Close: invoked on an already closed stmt"]⟩
  else
    ⟨none, true, (if 0 < o.numCols then [.reset] else []) ++ [.freeStmt], []⟩

/-- The connection state the driver keeps (conn struct): the connected
flag and the cached character set. -/
structure ConnState where
  connected : Bool
  charset : String
deriving DecidableEq, Repr

/-- Result of conn.Close: the returned Go error, the connection state
afterwards, the native calls performed, and the log lines. -/
structure ConnCloseResult where
  errOut : Option GoError
  stateAfter : ConnState
  calls : List NativeCall
  logs : List String
deriving DecidableEq, Repr

/-- conn.Close (source part_000 lines 67-75): disconnect — logging, not
returning, a failure — then unconditionally free the native connection,
clear the connected flag and return nil. -/
def connClose (o : SqlaOracle) (c : ConnState) : ConnCloseResult :=
  ⟨none, { c with connected := false }, [.disconnect, .freeConn],
    if o.disconnectOk then [] else ["sqla: error disconnecting"]⟩

/-- The column-reading loop of rows.Next: for each of n columns
starting at index i, getColumn writes the decoded value into the dest
slot; a getColumn failure returns whatever newError retrieves and
abandons the rest of the row. -/
def readCols (o : SqlaOracle) :
    Nat → Nat → List (Option GoValue) →
    Option GoError × List (Option GoValue) × List NativeCall
  | _, 0, dest => (none, dest, [])
  | i, n + 1, dest =>
    if o.getColumnOk i then
      let r := readCols o (i + 1) n (dest.set i (some (o.colVal i)))
      (r.1, r.2.1, .getColumn i :: r.2.2)
    else
      (newErrorResult o.nativeErr, dest, [.getColumn i])

/-- rows.Next (source part_000 lines 352-374): fetchNext; when it
reports no row, consult newError — a classified error whose code is not
100 is returned as-is, otherwise (sentinel code 100, or no pending
error) io.EOF signals end of data.  When a row is available, decode
each column into dest via getColumn.  Returns the Go error (none = a
row was delivered), the dest slots and the native-call trace. -/
def rowsNext (o : SqlaOracle) (dest : List (Option GoValue)) :
    Option GoError × List (Option GoValue) × List NativeCall :=
  if o.fetchNextOk then
    let r := readCols o 0 o.numCols dest
    (r.1, r.2.1, .fetchNext :: r.2.2)
  else
    match o.nativeErr with
    | some e =>
        if e.code = 100 then (some .eofErr, dest, [.fetchNext])
        else (some (.sqlaErr e), dest, [.fetchNext])
    | none => (some .eofErr, dest, [.fetchNext])

/-- A default oracle for concrete instantiations: every native call
succeeds, one result-set column, no parameters, no pending error. -/
def baseOracle : SqlaOracle :=
  { numCols := 1
    numParams := 0
    describeOk := fun _ => true
    bindOk := fun _ => true
    executeOk := true
    fetchNextOk := true
    getColumnOk := fun _ => true
    colVal := fun _ => GoValue.null
    nativeErr := none
    affectedRows := 0
    disconnectOk := true }

/-- Concrete cursor oracle: fetchNext reports no row and the pending
classified error carries the sentinel code 100. -/
def oC1 : SqlaOracle :=
  { baseOracle with fetchNextOk := false, nativeErr := some ⟨100, "eod"⟩ }

/-- Concrete cursor oracle: fetchNext reports no row and the pending
classified error carries a genuine failure code. -/
def oC1n : SqlaOracle :=
  { baseOracle with fetchNextOk := false, nativeErr := some ⟨-143, "column not found"⟩ }

/-- C1: when the native fetchNext reports no row and a classified
native error is pending, rows.Next returns io.EOF exactly when the
error carries the reserved sentinel code 100; any other code is
returned to the caller as that classified error, never swallowed as
end-of-data. -/
theorem next_sentinel_discrimination (o : SqlaOracle) (dest : List (Option GoValue))
    (e : SqlaError) (hf : o.fetchNextOk = false) (he : o.nativeErr = some e) :
    ((rowsNext o dest).1 = some GoError.eofErr ↔ e.code = 100) ∧
    (e.code ≠ 100 → (rowsNext o dest).1 = some (GoError.sqlaErr e)) := by
  by_cases hc : e.code = 100 <;> simp [rowsNext, hf, he, hc]

/-- C1 witness: with a pending code-100 error Next signals io.EOF; with
a pending code -143 error Next surfaces that error. -/
theorem next_sentinel_discrimination_witness :
    (rowsNext oC1 []).1 = some GoError.eofErr ∧
    (rowsNext oC1n []).1 = some (GoError.sqlaErr ⟨-143, "column not found"⟩) :=
  ⟨(next_sentinel_discrimination oC1 [] ⟨100, "eod"⟩ rfl rfl).1.mpr rfl,
   (next_sentinel_discrimination oC1n [] ⟨-143, "column not found"⟩ rfl rfl).2 (by decide)⟩

/-- Concrete statement oracle for the argument-count claim: two bind
parameters and a result set. -/
def oC2 : SqlaOracle := { baseOracle with numParams := 2, numCols := 1 }

/-- C2: executing with a non-nil argument list whose length differs
from the statement's parameter count returns the argument-count error,
with zero describeBindParam, zero native bindParam and zero native
execute calls in the trace (only the pending-cursor reset may have
run); Query and Exec propagate the same error and trace. -/
theorem execute_argcount_mismatch (o : SqlaOracle) (args : List GoValue)
    (h : args.length ≠ o.numParams) :
    stmtExecute o (some args) =
      (ExecOutcome.errE (GoError.argCount args.length o.numParams),
        if 0 < o.numCols then [NativeCall.reset] else []) ∧
    (stmtExecute o (some args)).2.countP isDescribeCall = 0 ∧
    (stmtExecute o (some args)).2.countP isBindCall = 0 ∧
    (stmtExecute o (some args)).2.countP isExecCall = 0 ∧
    stmtQuery o (some args) =
      (QueryOutcome.errQ (GoError.argCount args.length o.numParams),
        if 0 < o.numCols then [NativeCall.reset] else []) ∧
    stmtExec o (some args) =
      (ExecResultOutcome.errR2 (GoError.argCount args.length o.numParams),
        if 0 < o.numCols then [NativeCall.reset] else []) := by
  by_cases hc : 0 < o.numCols <;>
    simp [stmtExecute, stmtQuery, stmtExec, h, hc, isDescribeCall, isBindCall,
      isExecCall, List.countP_cons]

/-- C2 witness: one argument against two parameters fails with the
argument-count error after only the cursor reset. -/
theorem execute_argcount_mismatch_witness :
    [GoValue.int64V 5].length ≠ oC2.numParams ∧
    stmtExecute oC2 (some [GoValue.int64V 5]) =
      (ExecOutcome.errE (GoError.argCount 1 2), [NativeCall.reset]) ∧
    (stmtExecute oC2 (some [GoValue.int64V 5])).2.countP isBindCall = 0 :=
  ⟨by decide,
   by
    have h := execute_argcount_mismatch oC2 [GoValue.int64V 5] (by decide)
    exact ⟨h.1.trans (by decide), h.2.2.1⟩⟩

/-- Concrete statement oracle for the unsupported-type claim: two bind
parameters, no result columns, every native call succeeds. -/
def oC3 : SqlaOracle := { baseOracle with numParams := 2, numCols := 0 }

/-- C3 (code-bug evidence): a map-typed argument makes the codec return
ErrNotSupported and skips the native bindParam for that position, but
stmt.execute discards that error, keeps binding the remaining
parameters and still performs the native execute — it does not abort;
and for a complex128 argument the codec does not fail at all: the
native bindParam is invoked with the uninitialized descriptor. -/
theorem execute_ignores_unsupported_bind :
    encodeValue (GoValue.otherV "map[string]bool" 8) = EncodeStep.unsupported ∧
    stmtExecute oC3 (some [GoValue.otherV "map[string]bool" 8, GoValue.int64V 1]) =
      (ExecOutcome.okE,
        [NativeCall.describeBindParam 0, NativeCall.describeBindParam 1,
          NativeCall.bindParamCall 1, NativeCall.executeCall]) ∧
    encodeValue GoValue.complex128V =
      EncodeStep.proceed ⟨none, BufferContent.uninit, 16, 16, false⟩ ∧
    (stmtBindParam oC3 0 GoValue.complex128V).2 =
      [NativeCall.describeBindParam 0, NativeCall.bindParamCall 0] := by
  refine ⟨rfl, ?_, rfl, ?_⟩ <;> decide

/-- C4 counterexample: a one-byte string consisting of a NUL byte is
not encoded into a bound parameter at all — syscall.StringBytePtr
panics on interior NUL bytes. -/
theorem string_encode_nul_counterexample :
    encodeValue (GoValue.strV [0]) =
      EncodeStep.panicStep "syscall: string with NUL passed to StringByteSlice" := by
  decide

/-- C4 (amended): for every NUL-free string of byte length n, the codec
produces a bound parameter tagged A_STRING whose buffer is the string's
bytes followed by a NUL terminator, with bufferSize n + 1 and
valueLength n. -/
theorem string_encode_spec (bs : List Nat) (h : 0 ∉ bs) :
    encodeValue (GoValue.strV bs) =
      EncodeStep.proceed
        ⟨some NativeType.A_STRING, BufferContent.byteArr (bs ++ [0]),
          bs.length + 1, bs.length, false⟩ := by
  simp [encodeValue, h]

/-- C4 witness: the string "bob" (bytes 98 111 98) encodes to an
A_STRING parameter with bufferSize 4 and valueLength 3 and a
NUL-terminated buffer. -/
theorem string_encode_spec_witness :
    0 ∉ [98, 111, 98] ∧
    encodeValue (GoValue.strV [98, 111, 98]) =
      EncodeStep.proceed
        ⟨some NativeType.A_STRING, BufferContent.byteArr [98, 111, 98, 0],
          4, 3, false⟩ :=
  ⟨by decide, string_encode_spec [98, 111, 98] (by decide)⟩

/-- Concrete statement oracle for the re-execution claim: one bind
parameter and a pending result set. -/
def oC5 : SqlaOracle := { baseOracle with numParams := 1, numCols := 1 }

/-- C5: for a statement with a result set (numCols > 0), every execute
— with or without arguments — performs the native reset as its very
first native call, hence before any describeBindParam/bindParam and
before the native execute. -/
theorem execute_resets_pending_cursor (o : SqlaOracle) (args : Option (List GoValue))
    (h : 0 < o.numCols) :
    (stmtExecute o args).2.head? = some NativeCall.reset := by
  cases args with
  | none => simp [stmtExecute, h]
  | some as =>
    by_cases hl : as.length = o.numParams
    · rcases hb : bindAll o 0 as with ⟨p, tr⟩
      cases p <;> simp [stmtExecute, h, hl, hb]
    · simp [stmtExecute, h, hl]

/-- C5 witness: re-executing a row-producing one-parameter statement
with a fresh argument starts its native-call trace with reset. -/
theorem execute_resets_pending_cursor_witness :
    0 < oC5.numCols ∧
    (stmtExecute oC5 (some [GoValue.int64V 7])).2.head? = some NativeCall.reset :=
  ⟨by decide, execute_resets_pending_cursor oC5 (some [GoValue.int64V 7]) (by decide)⟩

/-- Concrete statement oracle for the null-argument claim: one bind
parameter, no result columns. -/
def oC6 : SqlaOracle := { baseOracle with numParams := 1, numCols := 0 }

/-- C6 (code-bug evidence): encoding a nil argument faults — after
describeBindParam succeeds, reflect.TypeOf(nil).Size() dereferences the
nil Type, so the panic propagates out of stmt.execute; no bound
parameter with isNull = true is ever produced. -/
theorem null_bind_faults :
    encodeValue GoValue.null =
      EncodeStep.panicStep "runtime error: invalid memory address or nil pointer dereference" ∧
    stmtExecute oC6 (some [GoValue.null]) =
      (ExecOutcome.panicked "runtime error: invalid memory address or nil pointer dereference",
        [NativeCall.describeBindParam 0]) := by
  exact ⟨rfl, by decide⟩

/-- Concrete statement oracle for the byte-sequence claim: one bind
parameter, no result columns. -/
def oC7 : SqlaOracle := { baseOracle with numParams := 1, numCols := 0 }

/-- C7 (code-bug evidence): a non-empty byte sequence encodes to an
A_BINARY parameter with bufferSize = valueLength = its length, but the
empty byte sequence faults — the source takes the address of the first
element of an empty slice — and the panic propagates out of
stmt.execute. -/
theorem empty_binary_bind_faults :
    encodeValue (GoValue.binaryV [202, 254]) =
      EncodeStep.proceed
        ⟨some NativeType.A_BINARY, BufferContent.byteArr [202, 254], 2, 2, false⟩ ∧
    encodeValue (GoValue.binaryV []) =
      EncodeStep.panicStep "runtime error: index out of range" ∧
    stmtExecute oC7 (some [GoValue.binaryV []]) =
      (ExecOutcome.panicked "runtime error: index out of range",
        [NativeCall.describeBindParam 0]) := by
  exact ⟨rfl, rfl, by decide⟩

/-- C8: stmt.Close is idempotent — the first Close on an open statement
returns nil, resets the pending result set exactly when the statement
produces columns, frees the native handle exactly once and marks the
statement closed; a second Close is a logged no-op that returns nil and
performs no native call at all. -/
theorem stmt_close_idempotent (o : SqlaOracle) :
    stmtClose o false =
      ⟨none, true,
        if 0 < o.numCols then [NativeCall.reset, NativeCall.freeStmt]
        else [NativeCall.freeStmt], []⟩ ∧
    (stmtClose o false).calls.count NativeCall.freeStmt = 1 ∧
    stmtClose o (stmtClose o false).closedAfter =
      ⟨none, true, [], ["stmt.Close: invoked on an already closed stmt"]⟩ ∧
    (stmtClose o (stmtClose o false).closedAfter).calls.count NativeCall.freeStmt = 0 := by
  by_cases h : 0 < o.numCols <;> simp [stmtClose, h]

/-- C8 witness: both closes of a row-producing statement, concretely. -/
theorem stmt_close_idempotent_witness :
    stmtClose baseOracle false =
      ⟨none, true, [NativeCall.reset, NativeCall.freeStmt], []⟩ ∧
    stmtClose baseOracle (stmtClose baseOracle false).closedAfter =
      ⟨none, true, [], ["stmt.Close: invoked on an already closed stmt"]⟩ := by
  have h := stmt_close_idempotent baseOracle
  exact ⟨h.1.trans (by decide), h.2.2.1⟩

/-- Concrete connection oracle whose native disconnect reports
failure. -/
def oC9 : SqlaOracle := { baseOracle with disconnectOk := false }

/-- C9: conn.Close always succeeds and always tears down — for every
disconnect outcome it returns nil, performs disconnect followed by the
unconditional free of the native connection, marks the connection
disconnected, and a failing disconnect is only logged. -/
theorem conn_close_always_succeeds (o : SqlaOracle) (c : ConnState) :
    connClose o c =
      ⟨none, { connected := false, charset := c.charset },
        [NativeCall.disconnect, NativeCall.freeConn],
        if o.disconnectOk then [] else ["sqla: error disconnecting"]⟩ :=
  rfl

/-- C9 witness: closing a connected connection whose native disconnect
fails still returns nil, frees the handle and logs the failure. -/
theorem conn_close_always_succeeds_witness :
    connClose oC9 ⟨true, "utf-8"⟩ =
      ⟨none, ⟨false, "utf-8"⟩, [NativeCall.disconnect, NativeCall.freeConn],
        ["sqla: error disconnecting"]⟩ :=
  (conn_close_always_succeeds oC9 ⟨true, "utf-8"⟩).trans (by decide)

/-- Concrete statement oracle for the nil-argument-list claim: three
bind parameters and a result set. -/
def oC10 : SqlaOracle := { baseOracle with numParams := 3, numCols := 1 }

/-- C10: executing with a nil (absent) argument list skips the
argument-count check and the whole bind loop even when the statement
has parameters: the trace holds no describeBindParam and no native
bindParam, just the optional cursor reset followed by exactly one
native execute, whose outcome is the native execute's own result. -/
theorem execute_nil_args_bypasses_binding (o : SqlaOracle) :
    stmtExecute o none =
      (execTail o, (if 0 < o.numCols then [NativeCall.reset] else []) ++
        [NativeCall.executeCall]) ∧
    (stmtExecute o none).2.countP isDescribeCall = 0 ∧
    (stmtExecute o none).2.countP isBindCall = 0 ∧
    (stmtExecute o none).2.countP isExecCall = 1 := by
  by_cases h : 0 < o.numCols <;>
    simp [stmtExecute, h, isDescribeCall, isBindCall, isExecCall, List.countP_cons]

/-- C10 witness: a three-parameter row-producing statement executed
with a nil argument list performs reset then execute, nothing else. -/
theorem execute_nil_args_bypasses_binding_witness :
    stmtExecute oC10 none = (ExecOutcome.okE, [NativeCall.reset, NativeCall.executeCall]) ∧
    (stmtExecute oC10 none).2.countP isBindCall = 0 := by
  have h := execute_nil_args_bypasses_binding oC10
  exact ⟨h.1.trans (by decide), h.2.2.1⟩

end Sqlago
